import Mathlib

/-!
Shallow embedding of aten/src/ATen/Device.h (`at::Device`): a value type
identifying a compute device by a `Type` (CPU or CUDA) and an optional
`int32_t` index with `-1` as the "unspecified / current device" sentinel.

The device index is modelled as `Int`: the source performs no arithmetic on
the index (only comparisons and assignments), so `Int` restricted to the
int32 range is an exact model of `int32_t` here.

Fallible constructors (which use `AT_CHECK` / `AT_ERROR` in the source) are
modelled with `Except ATError`.
-/

namespace ATen

/-- The possible values of the device type: `enum class Type { CPU, CUDA }`. -/
inductive DeviceType
  | CPU
  | CUDA
deriving DecidableEq, Repr

/-- Modelled from the spec: `Backend` is an external enumeration (defined
outside the given excerpt, in ScalarType.h) of execution backends that map
many-to-one onto `Device::Type`; the excerpt names the dense and sparse CPU
and CUDA backends, and the spec requires at least one backend with no valid
device type (rejected by the mapping), modelled here as `Undefined`. -/
inductive Backend
  | CPU
  | SparseCPU
  | CUDA
  | SparseCUDA
  | Undefined
deriving DecidableEq, Repr

/-- Modelled from the spec: `toString(Backend)` (declared outside the
excerpt) renders a backend name for diagnostics; used by `backend_to_type`
to name the offending backend in its error message. -/
def backendName (b : Backend) : String :=
  match b with
  | Backend.CPU => "CPU"
  | Backend.SparseCPU => "SparseCPU"
  | Backend.CUDA => "CUDA"
  | Backend.SparseCUDA => "SparseCUDA"
  | Backend.Undefined => "Undefined"

/-- The error conditions of the Device abstraction: `InvalidArgument` for
invariant violations at construction (`AT_CHECK` / `AT_ERROR`), `ParseError`
for descriptor strings that do not match the grammar. Each carries its
message. -/
inductive ATError
  | invalidArgument (msg : String)
  | parseError (msg : String)
deriving DecidableEq, Repr

/-- The `at::Device` value: fields `type_` and `index_` as in the source. -/
structure Device where
  type_ : DeviceType
  index_ : Int
deriving DecidableEq, Repr

/-- Accessor `Device::type()`. -/
def Device.type (d : Device) : DeviceType :=
  d.type_

/-- Accessor `Device::index()`. -/
def Device.index (d : Device) : Int :=
  d.index_

/-- `Device::is_cuda()`: true if the device is of CUDA type. -/
def Device.is_cuda (d : Device) : Bool :=
  d.type_ == DeviceType.CUDA

/-- `Device::is_cpu()`: true if the device is of CPU type. -/
def Device.is_cpu (d : Device) : Bool :=
  d.type_ == DeviceType.CPU

/-- `Device::has_index()`: true if the device has a non-default index. -/
def Device.has_index (d : Device) : Bool :=
  d.index_ != -1

/-- The constructor `Device(Type type, int32_t index = -1)`: initializes
`type_` and `index_`, then runs the two `AT_CHECK`s in source order.
`AT_CHECK(cond, msg...)` raises `InvalidArgument` with the message when
`cond` is false. -/
def Device.construct (type : DeviceType) (index : Int) : Except ATError Device :=
  let d : Device := { type_ := type, index_ := index }
  if ¬(index = -1 ∨ 0 ≤ index) then
    Except.error (ATError.invalidArgument
      ("Device index must be -1 or non-negative, got " ++ toString index))
  else if ¬(¬(d.is_cpu = true) ∨ index ≤ 0) then
    Except.error (ATError.invalidArgument
      ("CPU device index must be -1 or zero, got " ++ toString index))
  else
    Except.ok d

/-- The constructor `Device(Type type)` with the index argument omitted:
the defaulted index is the sentinel `-1`. -/
def Device.constructDefault (type : DeviceType) : Except ATError Device :=
  Device.construct type (-1)

/-- `Device::backend_to_type(Backend)`: converts a `Backend` to a
`Device::Type` if possible; otherwise `AT_ERROR` with a message naming the
backend. -/
def backend_to_type (backend : Backend) : Except ATError DeviceType :=
  match backend with
  | Backend.CPU => Except.ok DeviceType.CPU
  | Backend.SparseCPU => Except.ok DeviceType.CPU
  | Backend.CUDA => Except.ok DeviceType.CUDA
  | Backend.SparseCUDA => Except.ok DeviceType.CUDA
  | _ =>
      Except.error (ATError.invalidArgument
        ("Invalid backend " ++ backendName backend ++ " for Device construction"))

/-- The constructor `Device(Backend backend, int32_t index = -1)`:
delegates to the type+index constructor on `backend_to_type backend`; a
failure of the mapping propagates. -/
def Device.constructFromBackend (backend : Backend) (index : Int) :
    Except ATError Device :=
  match backend_to_type backend with
  | Except.ok t => Device.construct t index
  | Except.error e => Except.error e

/-- `Device::operator==`: true iff the `type_` and `index_` fields of the
two devices match exactly. -/
def Device.beq (d1 d2 : Device) : Bool :=
  d1.type_ == d2.type_ && d1.index_ == d2.index_

/-- `Device::operator!=`: the boolean negation of `operator==`. -/
def Device.bne (d1 d2 : Device) : Bool :=
  !(Device.beq d1 d2)

/-- `Device::set_index(int32_t)`: overwrites the `index_` field, with no
validation; modelled functionally as returning the updated device. -/
def Device.set_index (d : Device) (index : Int) : Device :=
  { d with index_ := index }

/-- The character for a single base-10 digit value (used by the modelled
decimal rendering of a device index). -/
def digitChar (d : Nat) : Char :=
  if d = 0 then '0'
  else if d = 1 then '1'
  else if d = 2 then '2'
  else if d = 3 then '3'
  else if d = 4 then '4'
  else if d = 5 then '5'
  else if d = 6 then '6'
  else if d = 7 then '7'
  else if d = 8 then '8'
  else '9'

/-- The base-10 digit value of a character (used by the modelled decimal
reading of a device index token). -/
def charVal (c : Char) : Nat :=
  c.toNat - 48

/-- Decimal digits of `n`, least significant first, with explicit fuel so
the definition is structural (the fuel `n` itself always suffices). -/
def natDigitsRevAux : Nat → Nat → List Char
  | _, 0 => []
  | 0, _ + 1 => []
  | fuel + 1, n + 1 => digitChar ((n + 1) % 10) :: natDigitsRevAux fuel ((n + 1) / 10)

/-- Canonical base-10 rendering of a natural number as characters, most
significant digit first. -/
def natToDigits (n : Nat) : List Char :=
  if n = 0 then ['0'] else (natDigitsRevAux n n).reverse

/-- Value of a base-10 digit-character list, most significant digit first. -/
def digitsToNat (cs : List Char) : Nat :=
  cs.foldl (fun a c => a * 10 + charVal c) 0

/-- Splits a character list at the first colon: returns the characters
before it and, when a colon is present, the characters after it. -/
def splitAtColon : List Char → List Char × Option (List Char)
  | [] => ([], none)
  | c :: cs =>
      if c = ':' then ([], some cs)
      else
        let r := splitAtColon cs
        (c :: r.1, r.2)

/-- Modelled from the spec: the case-sensitive device type literals of the
descriptor grammar, `"cpu"` and `"cuda"`; any other token is rejected. The
definition of `Device(const std::string&)` (in Device.cpp) is not part of
the given excerpt. -/
def parseTypeToken (cs : List Char) : Option DeviceType :=
  if cs = "cpu".toList then some DeviceType.CPU
  else if cs = "cuda".toList then some DeviceType.CUDA
  else none

/-- Modelled from the spec: the descriptor-string constructor
`Device(const std::string&)`, whose definition (Device.cpp) is not part of
the given excerpt. Grammar: a type literal `"cpu"` or `"cuda"`, optionally
followed by `":"` and a base-10 non-negative integer index. An unrecognized
type token or a non-numeric index token fails with `ParseError`; on a
successful parse it behaves as the type+index constructor (with the
sentinel `-1` when no index is given), so it inherits that constructor's
`InvalidArgument` validation. -/
def parseDeviceChars (cs : List Char) : Except ATError Device :=
  match parseTypeToken (splitAtColon cs).1 with
  | none => Except.error (ATError.parseError "Unrecognized device type in device string")
  | some t =>
      match (splitAtColon cs).2 with
      | none => Device.construct t (-1)
      | some itok =>
          if itok = [] then Device.construct t (-1)
          else if itok.all Char.isDigit then
            Device.construct t (Int.ofNat (digitsToNat itok))
          else Except.error (ATError.parseError "Invalid device index in device string")

/-- Modelled from the spec: `Device(const std::string&)` on a `String`. -/
def parseDeviceString (s : String) : Except ATError Device :=
  parseDeviceChars s.toList

/-- The lowercase rendering of a device type used by the descriptor
grammar and the stream formatter. -/
def typeName (t : DeviceType) : String :=
  match t with
  | DeviceType.CPU => "cpu"
  | DeviceType.CUDA => "cuda"

/-- Modelled from the spec: the stream formatter `operator<<(ostream&,
const Device&)`, whose definition is not part of the given excerpt: renders
`"<type>:<index>"`, or just `"<type>"` when the index is unspecified. -/
def formatDeviceChars (d : Device) : List Char :=
  if d.has_index = true then
    (typeName d.type_).toList ++ ':' :: natToDigits d.index_.toNat
  else (typeName d.type_).toList

/-- Modelled from the spec: the stream formatter, as a `String`. -/
def formatDevice (d : Device) : String :=
  String.mk (formatDeviceChars d)

/-- Value of a base-10 digit-character list given least significant digit
first (the reversed reading used to reason about `natDigitsRevAux`). -/
def revVal : List Char → Nat
  | [] => 0
  | c :: cs => revVal cs * 10 + charVal c

theorem construct_ok_of_valid (t : DeviceType) (i : Int)
    (h1 : i = -1 ∨ 0 ≤ i) (h2 : ¬(t = DeviceType.CPU ∧ 1 ≤ i)) :
    Device.construct t i = Except.ok { type_ := t, index_ := i } := by
  simp only [Device.construct, Device.is_cpu, beq_iff_eq]
  split
  · exfalso
    omega
  · split
    · exfalso
      rename_i hc
      push_neg at hc
      exact h2 ⟨hc.1, by omega⟩
    · rfl

theorem construct_err_of_lt_neg_one (t : DeviceType) (i : Int) (h : i < -1) :
    Device.construct t i = Except.error (ATError.invalidArgument
      ("Device index must be -1 or non-negative, got " ++ toString i)) := by
  simp only [Device.construct, Device.is_cpu, beq_iff_eq]
  split
  · rfl
  · exfalso
    omega

theorem construct_err_of_cpu_pos (i : Int) (hi : 1 ≤ i) :
    Device.construct DeviceType.CPU i = Except.error (ATError.invalidArgument
      ("CPU device index must be -1 or zero, got " ++ toString i)) := by
  simp only [Device.construct, Device.is_cpu, beq_iff_eq]
  split
  · exfalso
    omega
  · split
    · rfl
    · exfalso
      rename_i hc
      rcases not_not.mp hc with h | h
      · simp at h
      · omega

theorem construct_ok_inv (t : DeviceType) (i : Int) (d : Device)
    (h : Device.construct t i = Except.ok d) :
    d = { type_ := t, index_ := i } ∧ (i = -1 ∨ 0 ≤ i) ∧
      (t = DeviceType.CPU → i ≤ 0) := by
  simp only [Device.construct, Device.is_cpu, beq_iff_eq] at h
  split at h
  · exact absurd h (by simp)
  · split at h
    · exact absurd h (by simp)
    · rename_i hA hB
      refine ⟨(Except.ok.inj h).symm, not_not.mp hA, ?_⟩
      intro ht
      rcases not_not.mp hB with hc | hc
      · exact absurd ht hc
      · exact hc

/-- C1: `Device(type, index)` fails with an `InvalidArgument` condition if
and only if `index < -1` or (`type` is CPU and `index ≥ 1`); in every other
case construction succeeds. -/
theorem construct_fails_iff (t : DeviceType) (i : Int) :
    ((∃ msg, Device.construct t i = Except.error (ATError.invalidArgument msg)) ↔
      (i < -1 ∨ (t = DeviceType.CPU ∧ 1 ≤ i)))
    ∧ ((∃ d, Device.construct t i = Except.ok d) ↔
      ¬(i < -1 ∨ (t = DeviceType.CPU ∧ 1 ≤ i))) := by
  by_cases hbad : i < -1 ∨ (t = DeviceType.CPU ∧ 1 ≤ i)
  · constructor
    · refine ⟨fun _ => hbad, fun _ => ?_⟩
      rcases hbad with h | ⟨ht, hi⟩
      · exact ⟨_, construct_err_of_lt_neg_one t i h⟩
      · subst ht
        exact ⟨_, construct_err_of_cpu_pos i hi⟩
    · constructor
      · rintro ⟨d, hd⟩
        rcases hbad with h | ⟨ht, hi⟩
        · rw [construct_err_of_lt_neg_one t i h] at hd
          exact absurd hd (by simp)
        · subst ht
          rw [construct_err_of_cpu_pos i hi] at hd
          exact absurd hd (by simp)
      · intro hc
        exact absurd hbad hc
  · have hok : Device.construct t i = Except.ok { type_ := t, index_ := i } := by
      refine construct_ok_of_valid t i ?_ ?_
      · omega
      · intro hc
        exact hbad (Or.inr hc)
    rw [hok]
    constructor
    · constructor
      · rintro ⟨msg, hmsg⟩
        exact absurd hmsg (by simp)
      · intro hc
        exact absurd hc hbad
    · exact ⟨fun _ => hbad, fun _ => ⟨_, rfl⟩⟩

/-- C2: `operator==` holds iff both the type and the index fields are
exactly equal; in particular `Device(CPU, -1)` is not equal to
`Device(CPU, 0)` — the sentinel index is not normalized. -/
theorem beq_iff_fields_eq (d1 d2 : Device) :
    (Device.beq d1 d2 = true ↔ (d1.type = d2.type ∧ d1.index = d2.index))
    ∧ Device.beq { type_ := DeviceType.CPU, index_ := -1 }
        { type_ := DeviceType.CPU, index_ := 0 } = false := by
  constructor
  · simp [Device.beq, Device.type, Device.index]
  · rfl

/-- C4: `backend_to_type` sends the dense and sparse CPU backends to
`Type::CPU`, sends the dense and sparse CUDA backends to `Type::CUDA`, and
for every other backend fails with an `InvalidArgument` condition whose
message names the offending backend. -/
theorem backend_to_type_spec :
    backend_to_type Backend.CPU = Except.ok DeviceType.CPU
    ∧ backend_to_type Backend.SparseCPU = Except.ok DeviceType.CPU
    ∧ backend_to_type Backend.CUDA = Except.ok DeviceType.CUDA
    ∧ backend_to_type Backend.SparseCUDA = Except.ok DeviceType.CUDA
    ∧ (∀ b : Backend, b ≠ Backend.CPU → b ≠ Backend.SparseCPU →
        b ≠ Backend.CUDA → b ≠ Backend.SparseCUDA →
        backend_to_type b = Except.error (ATError.invalidArgument
          ("Invalid backend " ++ backendName b ++ " for Device construction"))) := by
  refine ⟨rfl, rfl, rfl, rfl, ?_⟩
  intro b h1 h2 h3 h4
  cases b
  · exact absurd rfl h1
  · exact absurd rfl h2
  · exact absurd rfl h3
  · exact absurd rfl h4
  · rfl

/-- C5: for every (type, index) pair satisfying the invariants (index is
-1 or non-negative, and a CPU device's index is -1 or 0), construction
succeeds and the accessors `type()` and `index()` return exactly the
supplied values; with the index argument omitted the stored index is the
sentinel -1. -/
theorem construct_accessors (t : DeviceType) (i : Int)
    (h1 : i = -1 ∨ 0 ≤ i) (h2 : t = DeviceType.CPU → i = -1 ∨ i = 0) :
    (∃ d, Device.construct t i = Except.ok d ∧ d.type = t ∧ d.index = i)
    ∧ (∃ d0, Device.constructDefault t = Except.ok d0 ∧
        d0.type = t ∧ d0.index = -1) := by
  constructor
  · refine ⟨_, construct_ok_of_valid t i h1 ?_, rfl, rfl⟩
    rintro ⟨ht, hi⟩
    rcases h2 ht with h | h <;> omega
  · refine ⟨_, construct_ok_of_valid t (-1) (Or.inl rfl) ?_, rfl, rfl⟩
    rintro ⟨_, hi⟩
    omega

/-- Witness for C5 at the concrete pair (CPU, 0) . -/
theorem construct_accessors_witness :
    (∃ d, Device.construct DeviceType.CPU 0 = Except.ok d ∧
        d.type = DeviceType.CPU ∧ d.index = 0)
    ∧ (∃ d0, Device.constructDefault DeviceType.CPU = Except.ok d0 ∧
        d0.type = DeviceType.CPU ∧ d0.index = -1) :=
  construct_accessors DeviceType.CPU 0 (Or.inr (by decide)) (fun _ => Or.inr rfl)

/-- C6: `set_index(i)` always succeeds (it is a total function in the
model, with no validation of `i`), afterwards `index()` returns exactly
`i` — including invariant-violating values such as a CPU device given
index 5 or any device given index -3 — and the type field is unchanged. -/
theorem set_index_spec (d : Device) (i : Int) :
    (d.set_index i).index = i ∧ (d.set_index i).type = d.type :=
  ⟨rfl, rfl⟩

/-- C7: the backend constructor `Device(backend, index)` delegates to the
type+index constructor on the mapped type: whenever `backend_to_type b`
succeeds with `t`, `Device(b, i)` produces exactly the same result
(success or InvalidArgument failure) as `Device(t, i)`. -/
theorem constructFromBackend_delegates (b : Backend) (i : Int)
    (t : DeviceType) (h : backend_to_type b = Except.ok t) :
    Device.constructFromBackend b i = Device.construct t i := by
  unfold Device.constructFromBackend
  rw [h]

/-- Witness for C7 at backend CUDA with index 3 . -/
theorem constructFromBackend_delegates_witness :
    backend_to_type Backend.CUDA = Except.ok DeviceType.CUDA
    ∧ Device.constructFromBackend Backend.CUDA 3 =
        Device.construct DeviceType.CUDA 3 :=
  ⟨rfl, constructFromBackend_delegates Backend.CUDA 3 DeviceType.CUDA rfl⟩

/-- C8: `has_index()` returns true iff the stored index is not the
sentinel -1; a device built with the defaulted index has `has_index()`
false, and one built with a non-negative index has `has_index()` true. -/
theorem has_index_spec (d : Device) (t : DeviceType) (i : Int)
    (d1 d2 : Device)
    (h1 : Device.constructDefault t = Except.ok d1)
    (h2 : Device.construct t i = Except.ok d2) (hi : 0 ≤ i) :
    (d.has_index = true ↔ d.index ≠ -1)
    ∧ d1.has_index = false ∧ d2.has_index = true := by
  obtain ⟨hd1, -, -⟩ := construct_ok_inv t (-1) d1 h1
  obtain ⟨hd2, -, -⟩ := construct_ok_inv t i d2 h2
  subst hd1
  subst hd2
  refine ⟨?_, ?_, ?_⟩
  · simp [Device.has_index, Device.index]
  · simp [Device.has_index]
  · simp [Device.has_index]
    omega

/-- Witness for C8 at type CUDA with index 0 . -/
theorem has_index_spec_witness :
    ((Device.mk DeviceType.CPU (-1)).has_index = true ↔
      (Device.mk DeviceType.CPU (-1)).index ≠ -1)
    ∧ (Device.mk DeviceType.CUDA (-1)).has_index = false
    ∧ (Device.mk DeviceType.CUDA 0).has_index = true :=
  has_index_spec (Device.mk DeviceType.CPU (-1)) DeviceType.CUDA 0
    (Device.mk DeviceType.CUDA (-1)) (Device.mk DeviceType.CUDA 0)
    rfl rfl (by decide)

/-- C9: the descriptor-string constructor yields `{CUDA, 3}` on
`"cuda:3"`, `{CPU, -1}` on `"cpu"`, a ParseError on `"gpu:0"`, an
InvalidArgument on `"cpu:2"`, and a ParseError on `"cuda:-1"` (the grammar
rejects a negative index token even though -1 is a valid sentinel
internally). -/
theorem parse_examples :
    parseDeviceString "cuda:3" =
      Except.ok { type_ := DeviceType.CUDA, index_ := 3 }
    ∧ parseDeviceString "cpu" =
      Except.ok { type_ := DeviceType.CPU, index_ := -1 }
    ∧ parseDeviceString "gpu:0" = Except.error
        (ATError.parseError "Unrecognized device type in device string")
    ∧ parseDeviceString "cpu:2" = Except.error
        (ATError.invalidArgument "CPU device index must be -1 or zero, got 2")
    ∧ parseDeviceString "cuda:-1" = Except.error
        (ATError.parseError "Invalid device index in device string") :=
  ⟨rfl, rfl, rfl, rfl, rfl⟩

/-- C10: `operator!=` returns exactly the boolean negation of
`operator==`, so exactly one of equality and inequality holds for any pair
of devices. -/
theorem bne_iff_not_beq (d1 d2 : Device) :
    (Device.bne d1 d2 = true ↔ ¬(Device.beq d1 d2 = true))
    ∧ (Device.beq d1 d2 = true ∨ Device.bne d1 d2 = true)
    ∧ ¬(Device.beq d1 d2 = true ∧ Device.bne d1 d2 = true) := by
  cases hb : Device.beq d1 d2 <;> simp [Device.bne, hb]

theorem charVal_digitChar (d : Nat) (h : d < 10) :
    charVal (digitChar d) = d := by
  interval_cases d <;> rfl

theorem isDigit_digitChar (d : Nat) (h : d < 10) :
    (digitChar d).isDigit = true := by
  interval_cases d <;> decide

theorem digitsToNat_reverse (cs : List Char) :
    digitsToNat cs.reverse = revVal cs := by
  induction cs with
  | nil => rfl
  | cons c rest ih =>
      simp only [List.reverse_cons, digitsToNat, List.foldl_append,
        List.foldl_cons, List.foldl_nil] at ih ⊢
      rw [ih, revVal]

theorem revVal_natDigitsRevAux :
    ∀ fuel n, n ≤ fuel → revVal (natDigitsRevAux fuel n) = n := by
  intro fuel
  induction fuel with
  | zero =>
      intro n hn
      interval_cases n
      rfl
  | succ fuel ih =>
      intro n hn
      rcases n with _ | m
      · rfl
      · simp only [natDigitsRevAux, revVal]
        rw [charVal_digitChar _ (Nat.mod_lt _ (by omega)),
          ih ((m + 1) / 10) (by omega)]
        omega

theorem digitsToNat_natToDigits (n : Nat) :
    digitsToNat (natToDigits n) = n := by
  unfold natToDigits
  split
  · rename_i h
    subst h
    rfl
  · rw [digitsToNat_reverse, revVal_natDigitsRevAux n n le_rfl]

theorem all_isDigit_natDigitsRevAux :
    ∀ fuel n, (natDigitsRevAux fuel n).all Char.isDigit = true := by
  intro fuel
  induction fuel with
  | zero =>
      intro n
      rcases n with _ | m <;> simp [natDigitsRevAux]
  | succ fuel ih =>
      intro n
      rcases n with _ | m
      · simp [natDigitsRevAux]
      · simp only [natDigitsRevAux, List.all_cons, Bool.and_eq_true]
        exact ⟨isDigit_digitChar _ (Nat.mod_lt _ (by omega)), ih _⟩

theorem all_isDigit_natToDigits (n : Nat) :
    (natToDigits n).all Char.isDigit = true := by
  unfold natToDigits
  split
  · decide
  · have h := all_isDigit_natDigitsRevAux n n
    rw [List.all_eq_true] at h ⊢
    intro x hx
    exact h x (List.mem_reverse.mp hx)

theorem natToDigits_ne_nil (n : Nat) : natToDigits n ≠ [] := by
  unfold natToDigits
  split
  · simp
  · rename_i h
    rcases Nat.exists_eq_succ_of_ne_zero h with ⟨m, rfl⟩
    simp [natDigitsRevAux]

theorem splitAtColon_append_colon (pre post : List Char) (h : ':' ∉ pre) :
    splitAtColon (pre ++ ':' :: post) = (pre, some post) := by
  induction pre with
  | nil => simp [splitAtColon]
  | cons c rest ih =>
      simp only [List.mem_cons, not_or] at h
      simp only [List.cons_append, splitAtColon, List.append_eq]
      rw [if_neg (fun hc => h.1 hc.symm), ih h.2]

theorem parse_typed_digits (t : DeviceType) (tok digits : List Char)
    (ht : parseTypeToken tok = some t) (hnc : ':' ∉ tok)
    (hne : digits ≠ []) (hd : digits.all Char.isDigit = true) :
    parseDeviceChars (tok ++ ':' :: digits) =
      Device.construct t (Int.ofNat (digitsToNat digits)) := by
  unfold parseDeviceChars
  rw [splitAtColon_append_colon tok digits hnc]
  simp [ht, hne, hd]

theorem parseDeviceChars_ok_inv (cs : List Char) (d : Device)
    (h : parseDeviceChars cs = Except.ok d) :
    (d.index_ = -1 ∨ 0 ≤ d.index_) ∧
      (d.type_ = DeviceType.CPU → d.index_ ≤ 0) := by
  unfold parseDeviceChars at h
  split at h
  · exact absurd h (by simp)
  · split at h
    · obtain ⟨hd, h1, h2⟩ := construct_ok_inv _ _ _ h
      subst hd
      exact ⟨h1, h2⟩
    · split at h
      · obtain ⟨hd, h1, h2⟩ := construct_ok_inv _ _ _ h
        subst hd
        exact ⟨h1, h2⟩
      · split at h
        · obtain ⟨hd, h1, h2⟩ := construct_ok_inv _ _ _ h
          subst hd
          exact ⟨h1, h2⟩
        · exact absurd h (by simp)

/-- C3: for every Device constructible from some descriptor string,
parsing the canonical formatted rendering of that Device yields a Device
equal to it (parse after format is the identity on string-constructible
devices). -/
theorem parse_format_roundtrip (s : String) (d : Device)
    (h : parseDeviceString s = Except.ok d) :
    parseDeviceString (formatDevice d) = Except.ok d := by
  obtain ⟨h1, h2⟩ := parseDeviceChars_ok_inv s.toList d h
  show parseDeviceChars (formatDevice d).toList = Except.ok d
  have hlist : (formatDevice d).toList = formatDeviceChars d := rfl
  rw [hlist]
  rcases d with ⟨t, i⟩
  have h1' : i = -1 ∨ 0 ≤ i := h1
  have h2' : t = DeviceType.CPU → i ≤ 0 := h2
  cases t
  · have hcase : i = -1 ∨ i = 0 := by
      rcases h1' with h | h
      · exact Or.inl h
      · have := h2' rfl
        omega
    rcases hcase with rfl | rfl
    · rfl
    · rfl
  · rcases h1' with rfl | hge
    · rfl
    · obtain ⟨n, rfl⟩ : ∃ n : Nat, i = Int.ofNat n :=
        ⟨i.toNat, (Int.toNat_of_nonneg hge).symm⟩
      have hh : (Device.mk DeviceType.CUDA (Int.ofNat n)).has_index = true := by
        simp [Device.has_index]
      have hfmt : formatDeviceChars (Device.mk DeviceType.CUDA (Int.ofNat n)) =
          "cuda".toList ++ ':' :: natToDigits n := by
        unfold formatDeviceChars
        rw [if_pos hh]
        rfl
      rw [hfmt, parse_typed_digits DeviceType.CUDA "cuda".toList
        (natToDigits n) rfl (by decide) (natToDigits_ne_nil n)
        (all_isDigit_natToDigits n)]
      rw [digitsToNat_natToDigits]
      refine construct_ok_of_valid DeviceType.CUDA (Int.ofNat n)
        (Or.inr (by omega)) ?_
      rintro ⟨hc, -⟩
      exact DeviceType.noConfusion hc

/-- Witness for C3 at the descriptor string "cuda:3" . -/
theorem parse_format_roundtrip_witness :
    parseDeviceString (formatDevice (Device.mk DeviceType.CUDA 3)) =
      Except.ok (Device.mk DeviceType.CUDA 3) :=
  parse_format_roundtrip "cuda:3" (Device.mk DeviceType.CUDA 3) rfl

end ATen
